import Mathlib

/-!
# Verification of the nofx three-layer trading pipeline

Shallow embedding of the decision-to-order pipeline of the `nofx`
repository (packages `layers`, `layers/data_layer`, `layers/ai_layer`,
`layers/execution_layer`).  Go `float64` fields are modelled as `ℚ`,
Go `int` as `ℤ` (counters that can only grow from zero as `ℕ`), Go
string-typed enumerations (`Direction`, `MarketCondition`, risk levels,
actions) as `String` holding the same constants as the source.
External collaborators (the language-model oracle, the exchange, the
wall clock) are modelled as explicit environment inputs; everything
else is translated directly from the Go source.
-/

namespace Nofx

/-! ## Raw market data (`market.Data`) -/

/-- `market.OIData`: open-interest snapshot. -/
structure OIData where
  latest : ℚ
  average : ℚ
  deriving Repr

/-- `market.IntradayData`: the intraday series used by `DataProcessor`
(`MidPrices`, `MACDValues`, `RSI14Values`; the other series are unused by
the embedded functions). -/
structure IntradayData where
  midPrices : List ℚ
  macdValues : List ℚ
  rsi14Values : List ℚ
  deriving Repr

/-- `market.LongerTermData`: longer-term context fields read by
`DataProcessor.ProcessMarketData`. -/
structure LongerTermData where
  ema50 : ℚ
  atr14 : ℚ
  currentVolume : ℚ
  averageVolume : ℚ
  deriving Repr

/-- `market.Data`: raw per-symbol market input.  Optional sub-records are
nil-able pointers in Go. -/
structure MarketData where
  symbol : String
  currentPrice : ℚ
  priceChange1h : ℚ
  priceChange4h : ℚ
  currentEMA20 : ℚ
  currentMACD : ℚ
  currentRSI7 : ℚ
  fundingRate : ℚ
  longerTermContext : Option LongerTermData
  openInterest : Option OIData
  intradaySeries : Option IntradayData
  deriving Repr

/-! ## Cleaned market data (`layers.CleanedMarketData`) -/

/-- `layers.CleanedMarketData`.  The `Timestamp` field (wall clock) is
omitted; the compressed summary is kept as a byte string (`List ℕ`),
matching Go's byte-level `len`/slicing. -/
structure CleanedMarketData where
  symbol : String
  currentPrice : ℚ
  priceChange1h : ℚ
  priceChange4h : ℚ
  priceChange24h : ℚ
  ema20 : ℚ
  ema50 : ℚ
  macd : ℚ
  macdSignal : ℚ
  rsi7 : ℚ
  rsi14 : ℚ
  atr : ℚ
  volume24h : ℚ
  volumeChange : ℚ
  openInterest : ℚ
  oiChange : ℚ
  fundingRate : ℚ
  dataQuality : ℚ
  isValid : Bool
  compressedSummary : List ℕ
  deriving Repr

/-- `layers.DataLayerConfig` (fields used by the embedded code). -/
structure DataLayerConfig where
  minDataQuality : ℚ
  maxAccountRiskPercent : ℚ
  maxSingleTradeRiskPercent : ℚ
  defaultLeverage : ℤ
  maxLeverage : ℤ
  circuitBreakerEnabled : Bool
  maxDailyLossPercent : ℚ
  maxConsecutiveLosses : ℤ
  deriving Repr

/-! ## DataProcessor (`layers/data_layer`) -/

/-- `DataProcessor.calculatePriceChange24h`: 24h change from the first
intraday mid-price when available, else 0. -/
def calculatePriceChange24h (data : MarketData) : ℚ :=
  match data.intradaySeries with
  | some series =>
    match series.midPrices with
    | first :: _ => if first > 0 then (data.currentPrice - first) / first * 100 else 0
    | [] => 0
  | none => 0

/-- `DataProcessor.calculateVolumeChange`: percentage change of current
volume versus average volume, 0 when the average is non-positive. -/
def calculateVolumeChange (data : MarketData) : ℚ :=
  match data.longerTermContext with
  | some ctx => if ctx.averageVolume > 0
      then (ctx.currentVolume - ctx.averageVolume) / ctx.averageVolume * 100 else 0
  | none => 0

/-- `DataProcessor.calculateOIChange`: percentage change of latest open
interest versus its average, 0 when the average is non-positive. -/
def calculateOIChange (data : MarketData) : ℚ :=
  match data.openInterest with
  | some oi => if oi.average > 0 then (oi.latest - oi.average) / oi.average * 100 else 0
  | none => 0

/-- `DataProcessor.calculateMACDSignal`: 9-point mean of the most recent
MACD samples, or `0.9 × currentMACD` when the series is short. -/
def calculateMACDSignal (data : MarketData) : ℚ :=
  match data.intradaySeries with
  | some series =>
    if series.macdValues.length ≥ 9 then
      ((series.macdValues.drop (series.macdValues.length - 9)).sum) / 9
    else data.currentMACD * (9/10)
  | none => data.currentMACD * (9/10)

/-- `DataProcessor.calculateRSI14`: last intraday RSI14 sample, else the
raw RSI7. -/
def calculateRSI14 (data : MarketData) : ℚ :=
  match data.intradaySeries with
  | some series =>
    match series.rsi14Values.getLast? with
    | some v => v
    | none => data.currentRSI7
  | none => data.currentRSI7

/-- `DataProcessor.assessDataQuality`: start at 1.0, subtract 0.5 for a
non-positive price, 0.1 each for non-positive EMA20 or RSI7 out of
(0,100], 0.2 for a missing or short intraday series; floor at 0. -/
def assessDataQuality (data : MarketData) : ℚ :=
  let q0 : ℚ := 1
  let q1 := if data.currentPrice ≤ 0 then q0 - 1/2 else q0
  let q2 := if data.currentEMA20 ≤ 0 then q1 - 1/10 else q1
  let q3 := if data.currentRSI7 ≤ 0 ∨ data.currentRSI7 > 100 then q2 - 1/10 else q2
  let seriesShort : Bool :=
    match data.intradaySeries with
    | none => true
    | some series => decide (series.midPrices.length < 10)
  let q4 := if seriesShort then q3 - 1/5 else q3
  if q4 < 0 then 0 else q4

/-- `DataProcessor.generateCompressedSummary`: the single pipe-delimited
`fmt.Sprintf` line is abstracted as the byte string `line` (decimal
rendering of binary floats is outside the embedding); the length cap is
translated from the source: over 650 bytes, keep the first 647 bytes and
append `"..."` (bytes 46,46,46). -/
def generateCompressedSummary (line : List ℕ) : List ℕ :=
  if line.length > 650 then line.take 647 ++ [46, 46, 46] else line

/-- `DataProcessor.ProcessMarketData`: copy/derive the cleaned fields,
assess quality, set `IsValid`, and attach the compressed summary.
`render` stands for the `fmt.Sprintf` rendering of the cleaned record
into the pipe-delimited byte line (the record still has an empty summary
at that point, as in the source).  `none` input models the nil pointer,
for which the source returns an error. -/
def processMarketData (cfg : DataLayerConfig) (render : CleanedMarketData → List ℕ) :
    Option MarketData → Option CleanedMarketData
  | none => none
  | some raw =>
    let quality := assessDataQuality raw
    let base : CleanedMarketData := {
      symbol := raw.symbol
      currentPrice := raw.currentPrice
      priceChange1h := raw.priceChange1h
      priceChange4h := raw.priceChange4h
      priceChange24h := calculatePriceChange24h raw
      ema20 := raw.currentEMA20
      ema50 := match raw.longerTermContext with | some ctx => ctx.ema50 | none => 0
      macd := raw.currentMACD
      macdSignal := calculateMACDSignal raw
      rsi7 := raw.currentRSI7
      rsi14 := calculateRSI14 raw
      atr := match raw.longerTermContext with | some ctx => ctx.atr14 | none => 0
      volume24h := match raw.longerTermContext with | some ctx => ctx.currentVolume | none => 0
      volumeChange := match raw.longerTermContext with | some _ => calculateVolumeChange raw | none => 0
      openInterest := match raw.openInterest with | some oi => oi.latest | none => 0
      oiChange := match raw.openInterest with | some _ => calculateOIChange raw | none => 0
      fundingRate := raw.fundingRate
      dataQuality := quality
      isValid := decide (quality ≥ cfg.minDataQuality)
      compressedSummary := [] }
    some { base with compressedSummary := generateCompressedSummary (render base) }

/-! ## RiskCalculator (`layers/data_layer`, `risk_calculator.go`) -/

/-- `layers.RiskMetrics`. -/
structure RiskMetrics where
  symbol : String
  maxPositionSizeUSD : ℚ
  recommendedLeverage : ℤ
  stopLossPrice : ℚ
  takeProfitPrice : ℚ
  maxLossUSD : ℚ
  requiredMargin : ℚ
  marginUsagePercent : ℚ
  riskLevel : String
  canTrade : Bool
  riskReason : String
  deriving Repr

/-- Mutable fields of `data_layer.RiskCalculator` (account snapshot,
daily PnL, loss streak, circuit-breaker flag). -/
structure RiskCalcState where
  totalBalance : ℚ
  availableBalance : ℚ
  usedMargin : ℚ
  dailyPnL : ℚ
  consecutiveLosses : ℕ
  circuitBreakerActive : Bool
  deriving Repr

/-- `NewRiskCalculator`: all balances and counters start at zero, breaker
inactive. -/
def newRiskCalculator : RiskCalcState :=
  { totalBalance := 0, availableBalance := 0, usedMargin := 0, dailyPnL := 0
    consecutiveLosses := 0, circuitBreakerActive := false }

/-- `RiskCalculator.UpdateAccountInfo`. -/
def updateAccountInfo (s : RiskCalcState) (totalBalance availableBalance usedMargin : ℚ) :
    RiskCalcState :=
  { s with totalBalance := totalBalance, availableBalance := availableBalance
           usedMargin := usedMargin }

/-- `RiskCalculator.UpdateDailyPnL`: store the PnL, then (if the breaker
is enabled) trip it when the loss exceeds
`totalBalance × maxDailyLossPercent / 100`. -/
def updateDailyPnL (cfg : DataLayerConfig) (s : RiskCalcState) (pnl : ℚ) : RiskCalcState :=
  let s1 := { s with dailyPnL := pnl }
  if cfg.circuitBreakerEnabled then
    let maxLoss := s1.totalBalance * cfg.maxDailyLossPercent / 100
    if s1.dailyPnL < -maxLoss then { s1 with circuitBreakerActive := true } else s1
  else s1

/-- `RiskCalculator.RecordTradeResult`: reset the loss streak on a win,
else increment it; trip the breaker at the configured streak. -/
def recordTradeResult (cfg : DataLayerConfig) (s : RiskCalcState) (isWin : Bool) : RiskCalcState :=
  let s1 := if isWin then { s with consecutiveLosses := 0 }
            else { s with consecutiveLosses := s.consecutiveLosses + 1 }
  if cfg.circuitBreakerEnabled then
    if (s1.consecutiveLosses : ℤ) ≥ cfg.maxConsecutiveLosses
    then { s1 with circuitBreakerActive := true } else s1
  else s1

/-- `RiskCalculator.ResetCircuitBreaker`. -/
def resetCircuitBreaker (s : RiskCalcState) : RiskCalcState :=
  { s with circuitBreakerActive := false, consecutiveLosses := 0, dailyPnL := 0 }

/-- `RiskCalculator.calculateRecommendedLeverage`: start from the
configured default; when ATR and price are positive subtract 2 if the
volatility percentage exceeds 5 (else 1 if it exceeds 3), flooring at 1;
subtract 1 more (floor 1) when RSI14 is above 70 or below 30; cap at the
configured maximum.  `int(math.Max(1, float64(x)-k))` is `max 1 (x-k)`. -/
def calculateRecommendedLeverage (cfg : DataLayerConfig) (data : CleanedMarketData) : ℤ :=
  let base0 := cfg.defaultLeverage
  let base1 :=
    if data.atr > 0 ∧ data.currentPrice > 0 then
      let volatility := data.atr / data.currentPrice * 100
      if volatility > 5 then max 1 (base0 - 2)
      else if volatility > 3 then max 1 (base0 - 1)
      else base0
    else base0
  let base2 := if data.rsi14 > 70 ∨ data.rsi14 < 30 then max 1 (base1 - 1) else base1
  if base2 > cfg.maxLeverage then cfg.maxLeverage else base2

/-- `RiskCalculator.calculateLongStopLoss`: `price − 2·ATR` when ATR is
positive, else 2% below price. -/
def calculateLongStopLoss (data : CleanedMarketData) : ℚ :=
  if data.atr > 0 then data.currentPrice - data.atr * 2
  else data.currentPrice * (98/100)

/-- `RiskCalculator.calculateLongTakeProfit`: 1:2 risk-reward above the
long stop. -/
def calculateLongTakeProfit (data : CleanedMarketData) : ℚ :=
  let stopLoss := calculateLongStopLoss data
  let risk := data.currentPrice - stopLoss
  data.currentPrice + risk * 2

/-- `RiskCalculator.calculateShortStopLoss`: `price + 2·ATR` when ATR is
positive, else 2% above price. -/
def calculateShortStopLoss (data : CleanedMarketData) : ℚ :=
  if data.atr > 0 then data.currentPrice + data.atr * 2
  else data.currentPrice * (102/100)

/-- `RiskCalculator.calculateShortTakeProfit`: 1:2 risk-reward below the
short stop. -/
def calculateShortTakeProfit (data : CleanedMarketData) : ℚ :=
  let stopLoss := calculateShortStopLoss data
  let risk := stopLoss - data.currentPrice
  data.currentPrice - risk * 2

/-- `RiskCalculator.assessRiskLevel`: additive score over margin usage,
leverage, loss percentage and loss streak, mapped to the four levels. -/
def assessRiskLevel (s : RiskCalcState) (metrics : RiskMetrics) : String :=
  let score0 : ℤ :=
    if metrics.marginUsagePercent > 80 then 3
    else if metrics.marginUsagePercent > 60 then 2
    else if metrics.marginUsagePercent > 40 then 1
    else 0
  let score1 := score0 +
    (if metrics.recommendedLeverage ≥ 5 then 2
     else if metrics.recommendedLeverage ≥ 3 then 1
     else 0)
  let score2 := score1 +
    (if s.totalBalance > 0 then
       let lossPercent := metrics.maxLossUSD / s.totalBalance * 100
       if lossPercent > 2 then 2 else if lossPercent > 1 then 1 else 0
     else 0)
  let score := score2 + (if s.consecutiveLosses ≥ 2 then 1 else 0)
  if score ≥ 5 then "extreme"
  else if score ≥ 3 then "high"
  else if score ≥ 1 then "medium"
  else "low"

/-- `RiskCalculator.canTrade`: the five sequential rejection checks
(breaker, available balance vs required margin, margin usage, extreme
risk level, non-positive stop).  The `fmt.Sprintf` number payloads of the
reason strings are elided; the fixed prefixes are kept. -/
def canTradeCheck (s : RiskCalcState) (metrics : RiskMetrics) : Bool × String :=
  if s.circuitBreakerActive then (false, "熔断机制触发")
  else if s.availableBalance < metrics.requiredMargin then (false, "可用余额不足")
  else if metrics.marginUsagePercent > 90 then (false, "保证金使用率过高")
  else if metrics.riskLevel = "extreme" then (false, "风险等级过高")
  else if metrics.stopLossPrice ≤ 0 then (false, "止损价格无效")
  else (true, "风控检查通过")

/-- `RiskCalculator.CalculateRiskMetrics`: breaker and balance pre-checks,
position sizing with the 2% notional stop assumption capped by the
account-risk limit, leverage recommendation, direction-dependent
stops/targets, max loss, margin figures, risk level and the can-trade
gate.  `none` input models the nil pointer (error in the source). -/
def calculateRiskMetrics (cfg : DataLayerConfig) (s : RiskCalcState) (direction : String) :
    Option CleanedMarketData → Option RiskMetrics
  | none => none
  | some data =>
    if s.circuitBreakerActive then
      some { symbol := data.symbol, maxPositionSizeUSD := 0, recommendedLeverage := 0
             stopLossPrice := 0, takeProfitPrice := 0, maxLossUSD := 0, requiredMargin := 0
             marginUsagePercent := 0, riskLevel := "extreme", canTrade := false
             riskReason := "熔断触发" }
    else if s.totalBalance ≤ 0 ∨ s.availableBalance ≤ 0 then
      some { symbol := data.symbol, maxPositionSizeUSD := 0, recommendedLeverage := 0
             stopLossPrice := 0, takeProfitPrice := 0, maxLossUSD := 0, requiredMargin := 0
             marginUsagePercent := 0, riskLevel := "extreme", canTrade := false
             riskReason := "账户余额不足" }
    else
      let maxRisk := s.totalBalance * cfg.maxSingleTradeRiskPercent / 100
      let maxPosition0 := maxRisk / (2/100)
      let maxAccountRisk := s.totalBalance * cfg.maxAccountRiskPercent / 100
      let maxPosition := if maxPosition0 > maxAccountRisk then maxAccountRisk else maxPosition0
      let leverage := calculateRecommendedLeverage cfg data
      let stopLoss :=
        if direction = "long" then calculateLongStopLoss data
        else if direction = "short" then calculateShortStopLoss data
        else 0
      let takeProfit :=
        if direction = "long" then calculateLongTakeProfit data
        else if direction = "short" then calculateShortTakeProfit data
        else 0
      let maxLoss :=
        if stopLoss > 0 then |data.currentPrice - stopLoss| / data.currentPrice * maxPosition
        else 0
      let requiredMargin := maxPosition / (leverage : ℚ)
      let marginUsage :=
        if s.totalBalance > 0 then (s.usedMargin + requiredMargin) / s.totalBalance * 100
        else 0
      let m1 : RiskMetrics := {
        symbol := data.symbol, maxPositionSizeUSD := maxPosition
        recommendedLeverage := leverage, stopLossPrice := stopLoss
        takeProfitPrice := takeProfit, maxLossUSD := maxLoss
        requiredMargin := requiredMargin, marginUsagePercent := marginUsage
        riskLevel := "", canTrade := false, riskReason := "" }
      let m2 := { m1 with riskLevel := assessRiskLevel s m1 }
      let gate := canTradeCheck s m2
      some { m2 with canTrade := gate.1, riskReason := gate.2 }

/-! ## AI layer (`layers/ai_layer`) -/

/-- `layers.AILayerConfig` (fields that influence the embedded logic;
provider/model/prompt-length fields only shape prompt strings). -/
structure AILayerConfig where
  minConfidence : ℚ
  deriving Repr

/-- `layers.AIDecision` (timestamp, model name and response-time metadata
omitted). -/
structure AIDecision where
  symbol : String
  marketCondition : String
  conditionReason : String
  opportunity : String
  opportunityReason : String
  direction : String
  confidence : ℚ
  chainOfThought : String
  deriving Repr

/-- Outcome of one oracle call (`mcp.Client.SendMessage`) followed by
`json.Unmarshal` of the response body, as observed by the caller:
transport failure, a body that fails JSON decoding, or a decoded
payload. -/
inductive OracleCall (α : Type)
  | failure
  | malformed (text : String)
  | parsed (value : α)
  deriving Repr

/-- `ai_layer.contains`: the "simplified" keyword check — true exactly
when both strings are non-empty, ignoring content. -/
def containsKeyword (text substr : String) : Bool :=
  decide (0 < text.length) && decide (0 < substr.length)

/-- `MarketAnalyzer.parseMarketConditionFromText`: keyword fallback over
the five condition tags, defaulting to `ranging`. -/
def parseMarketConditionFromText (text : String) : String × String :=
  if containsKeyword text "trending" || containsKeyword text "趋势" then
    ("trending", "从文本解析：趋势市场")
  else if containsKeyword text "ranging" || containsKeyword text "震荡" then
    ("ranging", "从文本解析：震荡市场")
  else if containsKeyword text "volatile" || containsKeyword text "波动" then
    ("volatile", "从文本解析：高波动市场")
  else if containsKeyword text "consolidate" || containsKeyword text "整理" then
    ("consolidate", "从文本解析：整理市场")
  else if containsKeyword text "breakout" || containsKeyword text "突破" then
    ("breakout", "从文本解析：突破市场")
  else ("ranging", "无法解析，默认震荡")

/-- `ai_layer.isValidMarketCondition`. -/
def isValidMarketCondition (condition : String) : Bool :=
  condition = "trending" || condition = "ranging" || condition = "volatile" ||
  condition = "consolidate" || condition = "breakout"

/-- `MarketAnalyzer.AnalyzeMarketCondition`: oracle classification with
JSON parsing, text fallback on malformed bodies, tag validation.
`none` is the error return (transport failure), after which the caller
falls back to the technical rule. -/
def analyzeMarketCondition (oracle : OracleCall (String × String)) :
    Option (String × String) :=
  match oracle with
  | .failure => none
  | .malformed text => some (parseMarketConditionFromText text)
  | .parsed (condition, reason) =>
    if isValidMarketCondition condition then some (condition, reason)
    else some ("ranging", "AI返回无效状态，默认为震荡")

/-- The trending block of
`MarketAnalyzer.AnalyzeMarketConditionWithTechnicals`: its early
`return`s are rendered as `some`, falling through as `none`. -/
def trendingRuleResult (d : CleanedMarketData) : Option (String × String) :=
  if d.ema20 > 0 ∧ d.ema50 > 0 then
    let emaSpread := (d.ema20 - d.ema50) / d.ema50 * 100
    if emaSpread > 2 ∨ emaSpread < -2 then
      let macdConfirm := (emaSpread > 0 ∧ d.macd > 0) ∨ (emaSpread < 0 ∧ d.macd < 0)
      if macdConfirm then
        if emaSpread > 0 then some ("trending", "EMA20上穿EMA50，MACD确认上升趋势")
        else some ("trending", "EMA20下穿EMA50，MACD确认下降趋势")
      else none
    else none
  else none

/-- `MarketAnalyzer.AnalyzeMarketConditionWithTechnicals`: rule-based
classifier — trending (EMA spread beyond ±2% with MACD sign agreement),
then breakout (price above both EMAs with volume surge), then volatile
(ATR above 5% of price), then consolidate (neutral RSI with MACD near
zero), else ranging. -/
def analyzeMarketConditionWithTechnicals (d : CleanedMarketData) : String × String :=
  match trendingRuleResult d with
  | some r => r
  | none =>
    if d.currentPrice > d.ema20 ∧ d.currentPrice > d.ema50 ∧ d.volumeChange > 50 then
      ("breakout", "价格突破EMA20和EMA50，成交量放大")
    else if d.atr > 0 ∧ d.currentPrice > 0 ∧ d.atr / d.currentPrice * 100 > 5 then
      ("volatile", "市场高波动")
    else if d.rsi14 > 40 ∧ d.rsi14 < 60 ∧ d.macd > -(1/10000) ∧ d.macd < 1/10000 then
      ("consolidate", "RSI在中性区域，MACD接近零轴，市场整理中")
    else ("ranging", "未识别出明显趋势或突破，判断为震荡市场")

/-- The guard under which the trending rule of
`AnalyzeMarketConditionWithTechnicals` fires (positive EMAs, spread
beyond ±2%, MACD sign agreeing with the spread). -/
def trendingRuleFires (d : CleanedMarketData) : Prop :=
  (d.ema20 > 0 ∧ d.ema50 > 0) ∧
  ((d.ema20 - d.ema50) / d.ema50 * 100 > 2 ∨ (d.ema20 - d.ema50) / d.ema50 * 100 < -2) ∧
  (((d.ema20 - d.ema50) / d.ema50 * 100 > 0 ∧ d.macd > 0) ∨
   ((d.ema20 - d.ema50) / d.ema50 * 100 < 0 ∧ d.macd < 0))

instance (d : CleanedMarketData) : Decidable (trendingRuleFires d) := by
  unfold trendingRuleFires
  infer_instance

/-- `OpportunityDetector.parseOpportunityFromText`. -/
def parseOpportunityFromText (text : String) : String × String :=
  if containsKeyword text "long_entry" || containsKeyword text "做多" ||
     containsKeyword text "买入" then ("long_entry", "从文本解析：做多机会")
  else if containsKeyword text "short_entry" || containsKeyword text "做空" ||
     containsKeyword text "卖出" then ("short_entry", "从文本解析：做空机会")
  else if containsKeyword text "long_exit" || containsKeyword text "平多" then
    ("long_exit", "从文本解析：多单出场")
  else if containsKeyword text "short_exit" || containsKeyword text "平空" then
    ("short_exit", "从文本解析：空单出场")
  else if containsKeyword text "scalp" || containsKeyword text "剥头皮" then
    ("scalp", "从文本解析：剥头皮")
  else ("none", "无交易机会")

/-- `ai_layer.isValidOpportunity`. -/
def isValidOpportunity (opp : String) : Bool :=
  opp = "long_entry" || opp = "short_entry" || opp = "long_exit" ||
  opp = "short_exit" || opp = "scalp" || opp = "none"

/-- `OpportunityDetector.DetectOpportunity`: oracle identification with
text fallback and tag validation; `none` is the transport-failure error
return. -/
def detectOpportunity (oracle : OracleCall (String × String)) : Option (String × String) :=
  match oracle with
  | .failure => none
  | .malformed text => some (parseOpportunityFromText text)
  | .parsed (opp, reason) =>
    if isValidOpportunity opp then some (opp, reason)
    else some ("none", "AI返回无效机会类型")

/-- `OpportunityDetector.detectTrendingOpportunity`. -/
def detectTrendingOpportunity (d : CleanedMarketData) : String × String :=
  if d.ema20 > d.ema50 then
    if d.currentPrice < d.ema20 ∧ d.rsi14 < 40 then
      ("long_entry", "上升趋势回调至EMA20，RSI超卖，做多机会")
    else if d.macd > d.macdSignal ∧ d.macd > 0 then
      ("long_entry", "上升趋势中MACD金叉，做多机会")
    else if d.currentPrice > d.ema20 ∧ d.rsi14 > 50 ∧ d.rsi14 < 70 then
      ("long_entry", "上升趋势延续，价格在EMA20上方，RSI健康")
    else ("none", "趋势市场但无明确入场点")
  else if d.ema20 < d.ema50 then
    if d.currentPrice > d.ema20 ∧ d.rsi14 > 60 then
      ("short_entry", "下降趋势反弹至EMA20，RSI超买，做空机会")
    else if d.macd < d.macdSignal ∧ d.macd < 0 then
      ("short_entry", "下降趋势中MACD死叉，做空机会")
    else if d.currentPrice < d.ema20 ∧ d.rsi14 < 50 ∧ d.rsi14 > 30 then
      ("short_entry", "下降趋势延续，价格在EMA20下方")
    else ("none", "趋势市场但无明确入场点")
  else ("none", "趋势市场但无明确入场点")

/-- `OpportunityDetector.detectBreakoutOpportunity`. -/
def detectBreakoutOpportunity (d : CleanedMarketData) : String × String :=
  if d.currentPrice > d.ema20 ∧ d.currentPrice > d.ema50 ∧
     d.volumeChange > 50 ∧ d.rsi14 > 55 then
    ("long_entry", "向上突破，成交量放大，做多机会")
  else if d.currentPrice < d.ema20 ∧ d.currentPrice < d.ema50 ∧
     d.volumeChange > 50 ∧ d.rsi14 < 45 then
    ("short_entry", "向下突破，成交量放大，做空机会")
  else ("none", "突破尚未确认")

/-- `OpportunityDetector.detectRangingOpportunity`. -/
def detectRangingOpportunity (d : CleanedMarketData) : String × String :=
  if d.rsi14 < 30 then ("long_entry", "震荡市场RSI超卖，低吸机会")
  else if d.rsi14 > 70 then ("short_entry", "震荡市场RSI超买，高抛机会")
  else if d.currentPrice < d.ema50 ∧ d.rsi14 < 40 then
    ("long_entry", "价格接近支撑位EMA50，超卖")
  else if d.currentPrice > d.ema50 ∧ d.rsi14 > 60 then
    ("short_entry", "价格接近阻力位EMA50，超买")
  else ("none", "震荡市场，等待更好入场点")

/-- `OpportunityDetector.detectConsolidateOpportunity`. -/
def detectConsolidateOpportunity (_d : CleanedMarketData) : String × String :=
  ("none", "整理阶段，等待方向选择")

/-- `OpportunityDetector.detectVolatileOpportunity`. -/
def detectVolatileOpportunity (d : CleanedMarketData) : String × String :=
  if d.rsi7 < 25 ∨ d.rsi7 > 75 then ("scalp", "高波动市场，短期反转机会")
  else ("none", "高波动市场，风险过高，观望")

/-- `OpportunityDetector.DetectOpportunityWithTechnicals`: dispatch on
the market-condition tag. -/
def detectOpportunityWithTechnicals (condition : String) (d : CleanedMarketData) :
    String × String :=
  if condition = "trending" then detectTrendingOpportunity d
  else if condition = "breakout" then detectBreakoutOpportunity d
  else if condition = "ranging" then detectRangingOpportunity d
  else if condition = "consolidate" then detectConsolidateOpportunity d
  else if condition = "volatile" then detectVolatileOpportunity d
  else ("none", "未知市场状态")

/-- `DecisionMaker.parseDecisionFromText`: keyword fallback; direction
defaults to `wait`, confidence is the fixed 0.75. -/
def parseDecisionFromText (text : String) : String × ℚ × String :=
  let direction :=
    if containsKeyword text "long" || containsKeyword text "做多" ||
       containsKeyword text "买入" then "long"
    else if containsKeyword text "short" || containsKeyword text "做空" ||
       containsKeyword text "卖出" then "short"
    else if containsKeyword text "wait" || containsKeyword text "观望" ||
       containsKeyword text "等待" then "wait"
    else "wait"
  (direction, 3/4, "从文本解析的决策")

/-- `DecisionMaker.callAIForDecision`: oracle merge call; on a decoded
payload validate the direction tag (else `wait`) and clamp the
confidence into `[0.7, 1.0]`; on a malformed body fall back to text
parsing; `none` is the transport-failure error return. -/
def callAIForDecision (oracle : OracleCall (String × ℚ × String)) :
    Option (String × ℚ × String) :=
  match oracle with
  | .failure => none
  | .malformed text => some (parseDecisionFromText text)
  | .parsed (dirStr, conf, reasoning) =>
    let direction :=
      if dirStr = "long" ∨ dirStr = "short" ∨ dirStr = "wait" then dirStr else "wait"
    let conf1 := if conf < 7/10 then 7/10 else conf
    let conf2 := if conf1 > 1 then 1 else conf1
    some (direction, conf2, reasoning)

/-- One `if A { confidence += 0.05 } else if B { confidence += 0.05 }`
block of `DecisionMaker.calculateConfidence`. -/
def confBump (c : ℚ) (hitLong hitShort : Bool) : ℚ :=
  if hitLong then c + 1/20 else if hitShort then c + 1/20 else c

/-- `DecisionMaker.calculateConfidence`: base 0.75 plus 0.05 for each of
RSI, MACD, EMA and volume confirmations, capped at 1.0. -/
def calculateConfidence (d : CleanedMarketData) (isLong : Bool) : ℚ :=
  let c0 : ℚ := 3/4
  let c1 := confBump c0 (isLong && decide (d.rsi14 < 40))
    (!isLong && decide (d.rsi14 > 60))
  let c2 := confBump c1 (isLong && decide (d.macd > d.macdSignal))
    (!isLong && decide (d.macd < d.macdSignal))
  let c3 := confBump c2 (isLong && decide (d.currentPrice > d.ema20))
    (!isLong && decide (d.currentPrice < d.ema20))
  let c4 := if d.volumeChange > 30 then c3 + 1/20 else c3
  if c4 > 1 then 1 else c4

/-- `DecisionMaker.makeRuleBasedDecision`: direction from the opportunity
tag; entries score via `calculateConfidence`, scalp uses RSI7 extremes at
0.75, everything else waits with confidence 0.  (The source's `condition`
parameter is unused by its body and dropped here.) -/
def makeRuleBasedDecision (opportunity : String) (d : CleanedMarketData) : String × ℚ :=
  if opportunity = "long_entry" then ("long", calculateConfidence d true)
  else if opportunity = "short_entry" then ("short", calculateConfidence d false)
  else if opportunity = "scalp" then
    if d.rsi7 < 30 then ("long", 3/4)
    else if d.rsi7 > 70 then ("short", 3/4)
    else ("wait", 3/4)
  else ("wait", 0)

/-- One invocation's external inputs to `DecisionMaker.MakeDecision`:
the wall-clock rate-limit verdict (`checkRateLimit`, which reads
`time.Now`) and the three oracle calls. -/
structure DecisionEnv where
  rateLimitOk : Bool
  conditionOracle : OracleCall (String × String)
  opportunityOracle : OracleCall (String × String)
  decisionOracle : OracleCall (String × ℚ × String)

/-- `DecisionMaker.MakeDecision`: rate-limit refusal, stage A (market
condition, oracle with technical fallback), stage B (opportunity, same
pattern), stage C (final direction and confidence, rule-based fallback),
then the confidence gate rewriting low-confidence directions to `wait`.
The rate-limit counter update (`updateRateLimit`) mutates only the
wall-clock bookkeeping abstracted into `rateLimitOk` and is omitted. -/
def makeDecision (cfg : AILayerConfig) (env : DecisionEnv) (d : CleanedMarketData) :
    AIDecision :=
  if env.rateLimitOk = false then
    { symbol := d.symbol, marketCondition := "ranging"
      conditionReason := "频率限制：已达到每小时最大决策次数"
      opportunity := "none", opportunityReason := "等待冷却"
      direction := "wait", confidence := 0, chainOfThought := "" }
  else
    let condPair :=
      match analyzeMarketCondition env.conditionOracle with
      | some p => p
      | none => analyzeMarketConditionWithTechnicals d
    let oppPair :=
      match detectOpportunity env.opportunityOracle with
      | some p => p
      | none => detectOpportunityWithTechnicals condPair.1 d
    let dcc : String × ℚ × String :=
      match callAIForDecision env.decisionOracle with
      | some t => t
      | none =>
        let rb := makeRuleBasedDecision oppPair.1 d
        (rb.1, rb.2, "AI调用失败，使用规则引擎决策")
    let direction := dcc.1
    let confidence := dcc.2.1
    let chain := dcc.2.2
    let gatedDirection := if confidence < cfg.minConfidence then "wait" else direction
    let gatedChain :=
      if confidence < cfg.minConfidence then chain ++ "\n信心度低于阈值，改为观望" else chain
    { symbol := d.symbol, marketCondition := condPair.1, conditionReason := condPair.2
      opportunity := oppPair.1, opportunityReason := oppPair.2
      direction := gatedDirection, confidence := confidence, chainOfThought := gatedChain }

/-! ## ParameterCalculator (`layers/execution_layer`) -/

/-- A value of the Go `map[string]interface{}` parameter map:
`float64`, `int` or `string` (the dynamic types the source stores and
type-asserts). -/
inductive PValue
  | f (q : ℚ)
  | i (n : ℤ)
  | s (v : String)
  deriving Repr, DecidableEq

/-- The parameter map, keyed by the source's string keys. -/
def Params : Type := String → Option PValue

/-- `ParameterCalculator.AdjustParametersForRisk`: copy the map, then —
`extreme`: force `action` to `wait`; `high`: halve `quantity` and
`quantity_usd` (when they hold floats) and decrement `leverage` with
floor 1 (when it holds an int); `medium`: scale `quantity` and
`quantity_usd` by 0.8; `low` or anything else: unchanged.  The Go
function mutates only its fresh copy; functionally that is a pointwise
update of the input map. -/
def adjustParametersForRisk (params : Params) (riskLevel : String) : Params :=
  if riskLevel = "extreme" then
    fun k => if k = "action" then some (PValue.s "wait") else params k
  else if riskLevel = "high" then
    fun k =>
      if k = "quantity" then
        match params "quantity" with
        | some (PValue.f q) => some (PValue.f (q * (1/2)))
        | v => v
      else if k = "quantity_usd" then
        match params "quantity_usd" with
        | some (PValue.f q) => some (PValue.f (q * (1/2)))
        | v => v
      else if k = "leverage" then
        match params "leverage" with
        | some (PValue.i l) => some (PValue.i (max 1 (l - 1)))
        | v => v
      else params k
  else if riskLevel = "medium" then
    fun k =>
      if k = "quantity" then
        match params "quantity" with
        | some (PValue.f q) => some (PValue.f (q * (4/5)))
        | v => v
      else if k = "quantity_usd" then
        match params "quantity_usd" with
        | some (PValue.f q) => some (PValue.f (q * (4/5)))
        | v => v
      else params k
  else params

/-! ## Orchestrator (`layers/orchestrator.go`) -/

/-- `layers.LayerConfig` (the execution-layer options do not influence
the embedded control flow). -/
structure LayerConfig where
  dataLayer : DataLayerConfig
  aiLayer : AILayerConfig

/-- Orchestrator statistics plus the risk calculator it owns. -/
structure OrchestratorState where
  rc : RiskCalcState
  totalExecutions : ℕ
  successfulTrades : ℕ
  failedTrades : ℕ
  rejectedByRisk : ℕ

/-- `NewOrchestrator`: zeroed counters, fresh risk calculator. -/
def newOrchestrator : OrchestratorState :=
  { rc := newRiskCalculator, totalExecutions := 0, successfulTrades := 0
    failedTrades := 0, rejectedByRisk := 0 }

/-- Pipeline stages of one trading cycle, in the order the orchestrator
invokes them. -/
inductive Stage
  | dataProcess
  | accountFetch
  | aiDecision
  | riskSizing
  | paramCalc
  | validation
  | dispatch
  deriving Repr, DecidableEq

/-- External outcomes of one `ExecuteTradingCycle` invocation:
the `Sprintf` rendering used for the compressed summary, the exchange
balance fetch (`OrderExecutor.GetAccountBalance`), the oracle/clock
inputs of `MakeDecision`, the secondary risk validation verdict
(`RiskValidator.ValidateExecution`), and the order dispatch outcome
(`OrderSender.SendOrder`: `none` = error, `some b` = returned result
with `Success = b`). -/
structure CycleEnv where
  render : CleanedMarketData → List ℕ
  balance : Option (ℚ × ℚ × ℚ)
  decisionEnv : DecisionEnv
  validation : Bool × String
  send : Option Bool

/-- `layers.TradingCycleResult` (timing omitted), extended with the trace
of stages the cycle actually entered. -/
structure TradingCycleResult where
  symbol : String
  success : Bool
  message : String
  errorMsg : String
  cleanedData : Option CleanedMarketData
  aiDecision : Option AIDecision
  riskMetrics : Option RiskMetrics
  stages : List Stage

/-- `Orchestrator.ExecuteTradingCycle`: bump `totalExecutions`, clean the
data, fetch the balance into the risk calculator, make the AI decision
(ending successfully on `wait`), size the risk (ending successfully with
`rejectedByRisk++` when `CanTrade` is false), compute parameters and the
plan, run the secondary validation (same rejection bookkeeping), then
dispatch and count the trade as successful or failed.
`ParameterCalculator.CalculateParameters` and
`OrderSender.PrepareExecutionPlan` error only on nil inputs (impossible
here) and their outputs feed only environment-decided collaborators, so
they appear as the `paramCalc` stage of the trace.  The caller always
passes a non-nil `raw` (the source dereferences `rawMarketData.Symbol`
before any check). -/
def executeTradingCycle (cfg : LayerConfig) (env : CycleEnv) (raw : MarketData)
    (s0 : OrchestratorState) : OrchestratorState × TradingCycleResult :=
  let s := { s0 with totalExecutions := s0.totalExecutions + 1 }
  let base : TradingCycleResult :=
    { symbol := raw.symbol, success := false, message := "", errorMsg := ""
      cleanedData := none, aiDecision := none, riskMetrics := none
      stages := [Stage.dataProcess] }
  match processMarketData cfg.dataLayer env.render (some raw) with
  | none => (s, { base with errorMsg := "数据处理失败" })
  | some cleaned =>
    let r1 := { base with cleanedData := some cleaned
                          stages := base.stages ++ [Stage.accountFetch] }
    match env.balance with
    | none => (s, { r1 with errorMsg := "获取账户信息失败" })
    | some (totalBalance, availableBalance, usedMargin) =>
      let s := { s with rc := updateAccountInfo s.rc totalBalance availableBalance usedMargin }
      let decision := makeDecision cfg.aiLayer env.decisionEnv cleaned
      let r2 := { r1 with aiDecision := some decision
                          stages := r1.stages ++ [Stage.aiDecision] }
      if decision.direction = "wait" then
        (s, { r2 with success := true, message := "AI决策：观望，不执行交易" })
      else
        match calculateRiskMetrics cfg.dataLayer s.rc decision.direction (some cleaned) with
        | none => (s, { r2 with errorMsg := "风险计算失败" })
        | some metrics =>
          let r3 := { r2 with riskMetrics := some metrics
                              stages := r2.stages ++ [Stage.riskSizing] }
          if metrics.canTrade = false then
            ({ s with rejectedByRisk := s.rejectedByRisk + 1 },
             { r3 with success := true
                       message := "风险检查阻止交易: " ++ metrics.riskReason })
          else
            let r4 := { r3 with stages := r3.stages ++ [Stage.paramCalc, Stage.validation] }
            if env.validation.1 = false then
              ({ s with rejectedByRisk := s.rejectedByRisk + 1 },
               { r4 with success := true
                         message := "二次风控验证失败: " ++ env.validation.2 })
            else
              let r5 := { r4 with stages := r4.stages ++ [Stage.dispatch] }
              match env.send with
              | none =>
                ({ s with failedTrades := s.failedTrades + 1 },
                 { r5 with errorMsg := "订单发送失败" })
              | some true =>
                ({ s with successfulTrades := s.successfulTrades + 1 },
                 { r5 with success := true, message := "交易执行成功" })
              | some false =>
                ({ s with failedTrades := s.failedTrades + 1 },
                 { r5 with errorMsg := "交易失败" })

/-- The orchestrator's externally invokable operations: trading cycles
and the four pass-through mutators. -/
inductive OrchestratorEvent
  | cycle (env : CycleEnv) (raw : MarketData)
  | updateAccount (totalBalance availableBalance usedMargin : ℚ)
  | updateDaily (pnl : ℚ)
  | recordTrade (isWin : Bool)
  | resetBreaker

/-- One orchestrator operation applied to the state. -/
def orchestratorStep (cfg : LayerConfig) (s : OrchestratorState) :
    OrchestratorEvent → OrchestratorState
  | .cycle env raw => (executeTradingCycle cfg env raw s).1
  | .updateAccount t a u => { s with rc := updateAccountInfo s.rc t a u }
  | .updateDaily pnl => { s with rc := updateDailyPnL cfg.dataLayer s.rc pnl }
  | .recordTrade isWin => { s with rc := recordTradeResult cfg.dataLayer s.rc isWin }
  | .resetBreaker => { s with rc := resetCircuitBreaker s.rc }

/-- Run a sequence of orchestrator operations from a fresh orchestrator. -/
def runOrchestrator (cfg : LayerConfig) (events : List OrchestratorEvent) :
    OrchestratorState :=
  events.foldl (orchestratorStep cfg) newOrchestrator

/-! ## Branch guards of the technical classifier, named for the
refinement statements -/

/-- Guard of the breakout branch of
`AnalyzeMarketConditionWithTechnicals` (price above both EMAs, volume
surge). -/
def breakoutRuleCond (d : CleanedMarketData) : Prop :=
  d.currentPrice > d.ema20 ∧ d.currentPrice > d.ema50 ∧ d.volumeChange > 50

instance (d : CleanedMarketData) : Decidable (breakoutRuleCond d) := by
  unfold breakoutRuleCond
  infer_instance

/-- Guard of the volatile branch (ATR above 5% of a positive price). -/
def volatileRuleCond (d : CleanedMarketData) : Prop :=
  d.atr > 0 ∧ d.currentPrice > 0 ∧ d.atr / d.currentPrice * 100 > 5

instance (d : CleanedMarketData) : Decidable (volatileRuleCond d) := by
  unfold volatileRuleCond
  infer_instance

/-- Guard of the consolidate branch (neutral RSI14, MACD within
±0.0001). -/
def consolidateRuleCond (d : CleanedMarketData) : Prop :=
  d.rsi14 > 40 ∧ d.rsi14 < 60 ∧ d.macd > -(1/10000) ∧ d.macd < 1/10000

instance (d : CleanedMarketData) : Decidable (consolidateRuleCond d) := by
  unfold consolidateRuleCond
  infer_instance

/-! ## Spec-side leverage formulas (refinement comparison for the
recommended-leverage claim) -/

/-- The leverage recommendation as the claim words it: subtract 2 when
`ATR/price ≥ 5%` (1 when `≥ 3%`), 1 more when RSI14 lies in
`[0,30] ∪ [70,100]`, clamp to `[1, maxLeverage]` — closed boundaries
throughout. -/
def claimedRecommendedLeverage (cfg : DataLayerConfig) (data : CleanedMarketData) : ℤ :=
  let vol := data.atr / data.currentPrice * 100
  let base1 :=
    if vol ≥ 5 then cfg.defaultLeverage - 2
    else if vol ≥ 3 then cfg.defaultLeverage - 1
    else cfg.defaultLeverage
  let base2 :=
    if (0 ≤ data.rsi14 ∧ data.rsi14 ≤ 30) ∨ (70 ≤ data.rsi14 ∧ data.rsi14 ≤ 100)
    then base1 - 1 else base1
  max 1 (min base2 cfg.maxLeverage)

/-- The same formula with the boundaries the code actually uses: strict
thresholds (`> 5%`, `> 3%`, `RSI14 < 30 ∨ RSI14 > 70`), each subtraction
floored at 1, and a final cap at `maxLeverage`. -/
def strictRecommendedLeverage (cfg : DataLayerConfig) (data : CleanedMarketData) : ℤ :=
  let vol := data.atr / data.currentPrice * 100
  let base1 :=
    if vol > 5 then max 1 (cfg.defaultLeverage - 2)
    else if vol > 3 then max 1 (cfg.defaultLeverage - 1)
    else cfg.defaultLeverage
  let base2 := if data.rsi14 > 70 ∨ data.rsi14 < 30 then max 1 (base1 - 1) else base1
  min base2 cfg.maxLeverage

/-! ## Concrete inputs used by counterexamples and witnesses -/

/-- The data-layer configuration of the repository's tests
(`orchestrator_test.go` / `risk_calculator_test.go`). -/
def cfgData0 : DataLayerConfig :=
  { minDataQuality := 8/10, maxAccountRiskPercent := 2, maxSingleTradeRiskPercent := 1
    defaultLeverage := 3, maxLeverage := 5, circuitBreakerEnabled := true
    maxDailyLossPercent := 5, maxConsecutiveLosses := 3 }

/-- AI-layer configuration with the documented default `minConfidence`. -/
def cfgAI0 : AILayerConfig := { minConfidence := 3/4 }

/-- Combined layer configuration for cycle runs. -/
def cfgL0 : LayerConfig := { dataLayer := cfgData0, aiLayer := cfgAI0 }

/-- A trivial summary rendering (the summary content is irrelevant to the
control-flow and bound statements). -/
def render0 : CleanedMarketData → List ℕ := fun _ => []

/-- A cleaned record with all-zero numeric fields, used as a base for
concrete cleaned inputs. -/
def cleanedBase : CleanedMarketData :=
  { symbol := "BTCUSDT", currentPrice := 0, priceChange1h := 0, priceChange4h := 0
    priceChange24h := 0, ema20 := 0, ema50 := 0, macd := 0, macdSignal := 0
    rsi7 := 0, rsi14 := 0, atr := 0, volume24h := 0, volumeChange := 0
    openInterest := 0, oiChange := 0, fundingRate := 0, dataQuality := 0
    isValid := false, compressedSummary := [] }

/-- Raw input whose assessed quality is 0.1 (non-positive price, EMA20
and RSI7, no intraday series): far below the 0.8 threshold. -/
def rawLowQuality : MarketData :=
  { symbol := "BTCUSDT", currentPrice := 0, priceChange1h := 0, priceChange4h := 0
    currentEMA20 := 0, currentMACD := 0, currentRSI7 := 0, fundingRate := 0
    longerTermContext := none, openInterest := none, intradaySeries := none }

/-- Raw input with a 1-hour price change of 200%. -/
def rawBadChange : MarketData :=
  { symbol := "BTCUSDT", currentPrice := 45000, priceChange1h := 200, priceChange4h := 0
    currentEMA20 := 44800, currentMACD := 0, currentRSI7 := 65, fundingRate := 0
    longerTermContext := none, openInterest := none, intradaySeries := none }

/-- Cleaned data sitting exactly on the claimed 5% volatility boundary
(`ATR/price = 5%`), neutral RSI. -/
def dataVolBoundary : CleanedMarketData :=
  { cleanedBase with currentPrice := 100, atr := 5, rsi14 := 50 }

/-- Cleaned data where price is above both EMAs with a volume surge but
`EMA20 < EMA50`, and the trending rule cannot fire (MACD = 0). -/
def dataBreakoutNoOrder : CleanedMarketData :=
  { cleanedBase with currentPrice := 120, ema20 := 100, ema50 := 110
                     macd := 0, volumeChange := 60 }

/-- Cycle environment: balance available, decision rate-limited (so the
AI stage returns a `wait` decision), validation passing, dispatch
succeeding. -/
def envWaitCycle : CycleEnv :=
  { render := render0, balance := some (10000, 8000, 2000)
    decisionEnv :=
      { rateLimitOk := false, conditionOracle := OracleCall.failure
        opportunityOracle := OracleCall.failure, decisionOracle := OracleCall.failure }
    validation := (true, "初步检查通过"), send := some true }

/-- A decision environment whose oracle yields a decodable long decision
at confidence 0.9. -/
def envLongDecision : DecisionEnv :=
  { rateLimitOk := true, conditionOracle := OracleCall.failure
    opportunityOracle := OracleCall.failure
    decisionOracle := OracleCall.parsed ("long", 9/10, "r") }

/-- A concrete well-typed parameter map as `CalculateParameters` emits
it. -/
def params0 : Params := fun k =>
  if k = "action" then some (PValue.s "open_long")
  else if k = "quantity" then some (PValue.f 2)
  else if k = "quantity_usd" then some (PValue.f 90000)
  else if k = "leverage" then some (PValue.i 3)
  else if k = "priority" then some (PValue.s "normal")
  else none

/-- A 651-byte line (all `'a'`), for exercising summary truncation. -/
def longLine : List ℕ := List.replicate 651 97

/-- A raw input whose fields all satisfy the claimed bounds (no optional
sub-records). -/
def rawGood : MarketData :=
  { symbol := "BTCUSDT", currentPrice := 45000, priceChange1h := 2, priceChange4h := 5
    currentEMA20 := 44800, currentMACD := 0, currentRSI7 := 65, fundingRate := 0
    longerTermContext := none, openInterest := none, intradaySeries := none }

/-- The cleaned record `ProcessMarketData` produces from `rawGood` under
the test configuration and the trivial rendering. -/
def cleanedGood : CleanedMarketData :=
  { symbol := "BTCUSDT", currentPrice := 45000, priceChange1h := 2, priceChange4h := 5
    priceChange24h := 0, ema20 := 44800, ema50 := 0, macd := 0, macdSignal := 0
    rsi7 := 65, rsi14 := 65, atr := 0, volume24h := 0, volumeChange := 0
    openInterest := 0, oiChange := 0, fundingRate := 0, dataQuality := 4/5
    isValid := true, compressedSummary := [] }

/-! ## Helper lemmas (shared) -/

/-- A non-empty string has positive length. -/
theorem length_pos_of_ne_empty (s : String) (h : s ≠ "") : 0 < s.length := by
  cases s with
  | mk data =>
    cases data with
    | nil => exact absurd rfl h
    | cons c cs => simp [String.length]

/-! ## C7 — stops, targets and the 1:2 risk-reward ratio -/

/-- C7: for a positive price and non-negative ATR, the long stop is
`price − 2·ATR` when ATR is positive and `0.98·price` when ATR is zero
(short: `price + 2·ATR`, `1.02·price`); in every such case
`stopLoss < price < takeProfit` for longs, the mirrored inequalities for
shorts, and the target distance is exactly twice the stop distance. -/
theorem riskCalculator_stops_targets (d : CleanedMarketData)
    (hp : 0 < d.currentPrice) (ha : 0 ≤ d.atr) :
    (0 < d.atr → calculateLongStopLoss d = d.currentPrice - 2 * d.atr ∧
       calculateShortStopLoss d = d.currentPrice + 2 * d.atr) ∧
    (d.atr = 0 → calculateLongStopLoss d = d.currentPrice * (98/100) ∧
       calculateShortStopLoss d = d.currentPrice * (102/100)) ∧
    calculateLongStopLoss d < d.currentPrice ∧
    d.currentPrice < calculateLongTakeProfit d ∧
    calculateShortTakeProfit d < d.currentPrice ∧
    d.currentPrice < calculateShortStopLoss d ∧
    calculateLongTakeProfit d - d.currentPrice =
      2 * (d.currentPrice - calculateLongStopLoss d) ∧
    d.currentPrice - calculateShortTakeProfit d =
      2 * (calculateShortStopLoss d - d.currentPrice) := by
  have hL : calculateLongStopLoss d < d.currentPrice := by
    simp only [calculateLongStopLoss]
    split_ifs with h1 <;> linarith
  have hS : d.currentPrice < calculateShortStopLoss d := by
    simp only [calculateShortStopLoss]
    split_ifs with h1 <;> linarith
  have hTP : d.currentPrice < calculateLongTakeProfit d := by
    simp only [calculateLongTakeProfit]
    linarith
  have hTPs : calculateShortTakeProfit d < d.currentPrice := by
    simp only [calculateShortTakeProfit]
    linarith
  refine ⟨fun h => ?_, fun h => ?_, hL, hTP, hTPs, hS, ?_, ?_⟩
  · simp only [calculateLongStopLoss, calculateShortStopLoss, if_pos h]
    constructor <;> ring
  · simp only [calculateLongStopLoss, calculateShortStopLoss, h,
      if_neg (lt_irrefl (0 : ℚ))]
    exact ⟨trivial, trivial⟩
  · simp only [calculateLongTakeProfit]
    ring
  · simp only [calculateShortTakeProfit]
    ring

/-- C7 witness: the theorem instantiated at price 100, ATR 5. -/
theorem riskCalculator_stops_targets_witness :
    0 < ({ cleanedBase with currentPrice := 100, atr := 5 } : CleanedMarketData).currentPrice ∧
    calculateLongStopLoss { cleanedBase with currentPrice := 100, atr := 5 } < 100 ∧
    (100 : ℚ) < calculateLongTakeProfit { cleanedBase with currentPrice := 100, atr := 5 } := by
  have h := riskCalculator_stops_targets { cleanedBase with currentPrice := 100, atr := 5 }
    (by norm_num [cleanedBase]) (by norm_num [cleanedBase])
  exact ⟨by norm_num [cleanedBase], h.2.2.1, h.2.2.2.1⟩

/-! ## C8 — compressed-summary truncation -/

/-- C8: every compressed summary emitted by `ProcessMarketData` is at
most 650 bytes; when the pipe-delimited line is longer, the summary is
the first 647 bytes of that line followed by `"..."`. -/
theorem compressedSummary_length_spec :
    (∀ line : List ℕ, (generateCompressedSummary line).length ≤ 650 ∧
        (650 < line.length →
          generateCompressedSummary line = line.take 647 ++ [46, 46, 46])) ∧
    (∀ (cfg : DataLayerConfig) (render : CleanedMarketData → List ℕ) (raw : MarketData)
        (c : CleanedMarketData), processMarketData cfg render (some raw) = some c →
        c.compressedSummary.length ≤ 650) := by
  have hline : ∀ line : List ℕ, (generateCompressedSummary line).length ≤ 650 ∧
      (650 < line.length →
        generateCompressedSummary line = line.take 647 ++ [46, 46, 46]) := by
    intro line
    unfold generateCompressedSummary
    split_ifs with h
    · refine ⟨?_, fun _ => rfl⟩
      simp only [List.length_append, List.length_take, List.length_cons, List.length_nil]
      omega
    · exact ⟨by omega, fun hc => absurd hc h⟩
  refine ⟨hline, ?_⟩
  intro cfg render raw c hproc
  simp only [processMarketData] at hproc
  cases hproc
  exact (hline _).1

/-- C8 witness: truncation at a concrete 651-byte line and a concrete
processed record. -/
theorem compressedSummary_length_spec_witness :
    (generateCompressedSummary longLine).length ≤ 650 ∧
    (650 < longLine.length →
      generateCompressedSummary longLine = longLine.take 647 ++ [46, 46, 46]) ∧
    ((processMarketData cfgData0 render0 (some rawBadChange)).map
        (fun c => c.compressedSummary.length ≤ 650) = some True ∨
      ∀ c, processMarketData cfgData0 render0 (some rawBadChange) = some c →
        c.compressedSummary.length ≤ 650) :=
  ⟨(compressedSummary_length_spec.1 longLine).1,
   (compressedSummary_length_spec.1 longLine).2,
   Or.inr fun c hc => compressedSummary_length_spec.2 cfgData0 render0 rawBadChange c hc⟩

/-! ## C9 — risk adjustment of the parameter map -/

/-- C9: `AdjustParametersForRisk` acts pointwise on a copy —
`extreme` rewrites only `action` (to `wait`); `high` halves `quantity`
and `quantity_usd` and decrements `leverage` with floor 1; `medium`
scales the two quantities by 0.8; `low` changes nothing; all other keys
keep their original values in every case. -/
theorem adjustParametersForRisk_spec (params : Params) :
    (adjustParametersForRisk params "extreme" "action" = some (PValue.s "wait")) ∧
    (∀ k, k ≠ "action" → adjustParametersForRisk params "extreme" k = params k) ∧
    (∀ q, params "quantity" = some (PValue.f q) →
        adjustParametersForRisk params "high" "quantity" = some (PValue.f (q * (1/2)))) ∧
    (∀ q, params "quantity_usd" = some (PValue.f q) →
        adjustParametersForRisk params "high" "quantity_usd" = some (PValue.f (q * (1/2)))) ∧
    (∀ l, params "leverage" = some (PValue.i l) →
        adjustParametersForRisk params "high" "leverage" = some (PValue.i (max 1 (l - 1)))) ∧
    (∀ k, k ≠ "quantity" → k ≠ "quantity_usd" → k ≠ "leverage" →
        adjustParametersForRisk params "high" k = params k) ∧
    (∀ q, params "quantity" = some (PValue.f q) →
        adjustParametersForRisk params "medium" "quantity" = some (PValue.f (q * (4/5)))) ∧
    (∀ q, params "quantity_usd" = some (PValue.f q) →
        adjustParametersForRisk params "medium" "quantity_usd" = some (PValue.f (q * (4/5)))) ∧
    (∀ k, k ≠ "quantity" → k ≠ "quantity_usd" →
        adjustParametersForRisk params "medium" k = params k) ∧
    (∀ k, adjustParametersForRisk params "low" k = params k) := by
  refine ⟨?_, ?_, ?_, ?_, ?_, ?_, ?_, ?_, ?_, ?_⟩
  · simp [adjustParametersForRisk]
  · intro k hk
    simp [adjustParametersForRisk, hk]
  · intro q hq
    simp [adjustParametersForRisk, hq]
  · intro q hq
    simp [adjustParametersForRisk, hq]
  · intro l hl
    simp [adjustParametersForRisk, hl]
  · intro k h1 h2 h3
    simp [adjustParametersForRisk, h1, h2, h3]
  · intro q hq
    simp [adjustParametersForRisk, hq]
  · intro q hq
    simp [adjustParametersForRisk, hq]
  · intro k h1 h2
    simp [adjustParametersForRisk, h1, h2]
  · intro k
    simp [adjustParametersForRisk]

/-- C9 witness: the adjustment at a concrete well-typed map and level
`high`. -/
theorem adjustParametersForRisk_spec_witness :
    params0 "quantity" = some (PValue.f 2) ∧
    adjustParametersForRisk params0 "high" "quantity" = some (PValue.f (2 * (1/2))) ∧
    adjustParametersForRisk params0 "high" "priority" = params0 "priority" :=
  ⟨by decide, (adjustParametersForRisk_spec params0).2.2.1 2 (by decide),
   (adjustParametersForRisk_spec params0).2.2.2.2.2.1 "priority"
     (by decide) (by decide) (by decide)⟩

/-! ## C10 — the degenerate keyword helper -/

/-- C10: `contains` is true whenever both strings are non-empty,
ignoring content; hence on any non-empty oracle text the condition
fallback parser answers `trending` (its first branch) and the decision
fallback parser answers `long` with confidence 0.75 (its first branch),
regardless of the text. -/
theorem containsKeyword_fallbacks (text : String) (h : text ≠ "") :
    (∀ substr : String, substr ≠ "" → containsKeyword text substr = true) ∧
    (parseMarketConditionFromText text).1 = "trending" ∧
    (parseDecisionFromText text).1 = "long" ∧
    (parseDecisionFromText text).2.1 = 3/4 := by
  have ht : 0 < text.length := length_pos_of_ne_empty text h
  have hc : ∀ substr : String, substr ≠ "" → containsKeyword text substr = true := by
    intro substr hs
    have hs' : 0 < substr.length := length_pos_of_ne_empty substr hs
    simp [containsKeyword, ht, hs']
  refine ⟨hc, ?_, ?_, ?_⟩
  · have h1 : containsKeyword text "trending" = true := hc _ (by decide)
    simp [parseMarketConditionFromText, h1]
  · have h1 : containsKeyword text "long" = true := hc _ (by decide)
    simp [parseDecisionFromText, h1]
  · simp [parseDecisionFromText]

/-- C10 witness: the helper and both parsers at a concrete text that
names no keyword at all. -/
theorem containsKeyword_fallbacks_witness :
    containsKeyword "zzz" "trending" = true ∧
    (parseMarketConditionFromText "zzz").1 = "trending" ∧
    (parseDecisionFromText "zzz").1 = "long" ∧
    (parseDecisionFromText "zzz").2.1 = 3/4 :=
  ⟨(containsKeyword_fallbacks "zzz" (by decide)).1 "trending" (by decide),
   (containsKeyword_fallbacks "zzz" (by decide)).2.1,
   (containsKeyword_fallbacks "zzz" (by decide)).2.2.1,
   (containsKeyword_fallbacks "zzz" (by decide)).2.2.2⟩

/-! ## C4 — recommended leverage -/

/-- C4 counterexample: at `ATR/price` exactly 5% with neutral RSI and
the default test configuration, the claimed closed-boundary formula
yields leverage 1 (subtract 2 at the 5% boundary) while the code yields
2 (its `> 5` test does not fire, only `> 3` does). -/
theorem calculateRecommendedLeverage_boundary_counterexample :
    calculateRecommendedLeverage cfgData0 dataVolBoundary = 2 ∧
    claimedRecommendedLeverage cfgData0 dataVolBoundary = 1 ∧
    dataVolBoundary.atr / dataVolBoundary.currentPrice * 100 = 5 := by
  refine ⟨?_, ?_, ?_⟩ <;>
    norm_num [calculateRecommendedLeverage, claimedRecommendedLeverage, dataVolBoundary,
      cfgData0, cleanedBase]

/-- C4 (amended): the subtractions use strict thresholds —
`calculateRecommendedLeverage` equals the strict-boundary formula
whenever the price is positive, and with a positive configured default
and maximum the result lies in `[1, maxLeverage]`. -/
theorem calculateRecommendedLeverage_spec (cfg : DataLayerConfig) (data : CleanedMarketData)
    (hp : 0 < data.currentPrice) :
    calculateRecommendedLeverage cfg data = strictRecommendedLeverage cfg data ∧
    (1 ≤ cfg.defaultLeverage → 1 ≤ cfg.maxLeverage →
      1 ≤ calculateRecommendedLeverage cfg data ∧
      calculateRecommendedLeverage cfg data ≤ cfg.maxLeverage) := by
  have hvol : data.atr ≤ 0 → ¬ (data.atr / data.currentPrice * 100 > 3) := by
    intro ha
    have h1 : data.atr / data.currentPrice ≤ 0 :=
      div_nonpos_of_nonpos_of_nonneg ha (le_of_lt hp)
    intro hc
    nlinarith
  have heq : calculateRecommendedLeverage cfg data = strictRecommendedLeverage cfg data := by
    simp only [calculateRecommendedLeverage, strictRecommendedLeverage]
    rcases le_or_lt data.atr 0 with ha | ha
    · have h3 := hvol ha
      have h5 : ¬ (data.atr / data.currentPrice * 100 > 5) := fun hc => h3 (by linarith)
      rw [if_neg (fun hc : data.atr > 0 ∧ data.currentPrice > 0 =>
            absurd hc.1 (not_lt.mpr ha)),
          if_neg h5, if_neg h3]
      split_ifs <;> omega
    · rw [if_pos (show data.atr > 0 ∧ data.currentPrice > 0 from ⟨ha, hp⟩)]
      split_ifs <;> omega
  refine ⟨heq, fun hd hm => ?_⟩
  rw [heq]
  simp only [strictRecommendedLeverage]
  refine ⟨?_, ?_⟩ <;> split_ifs <;> omega

/-- C4 witness: the amended theorem at a concrete volatile overbought
input (price 100, ATR 10, RSI 80, default 3, max 5). -/
theorem calculateRecommendedLeverage_spec_witness :
    0 < ({ cleanedBase with currentPrice := 100, atr := 10, rsi14 := 80 } :
        CleanedMarketData).currentPrice ∧
    calculateRecommendedLeverage cfgData0
        { cleanedBase with currentPrice := 100, atr := 10, rsi14 := 80 } =
      strictRecommendedLeverage cfgData0
        { cleanedBase with currentPrice := 100, atr := 10, rsi14 := 80 } ∧
    1 ≤ calculateRecommendedLeverage cfgData0
        { cleanedBase with currentPrice := 100, atr := 10, rsi14 := 80 } := by
  have h := calculateRecommendedLeverage_spec cfgData0
    { cleanedBase with currentPrice := 100, atr := 10, rsi14 := 80 } (by norm_num [cleanedBase])
  exact ⟨by norm_num [cleanedBase], h.1,
    (h.2 (by norm_num [cfgData0]) (by norm_num [cfgData0])).1⟩

/-! ## C3 — the breakout rule of the technical classifier -/

/-- C3 counterexample: with price above both EMAs, a volume surge,
`EMA20 < EMA50` (so the claimed `price > EMA20 > EMA50` chain fails) and
a trending rule that cannot fire (MACD = 0), the classifier still
returns `breakout`. -/
theorem breakoutRule_counterexample :
    ¬ trendingRuleFires dataBreakoutNoOrder ∧
    ¬ (dataBreakoutNoOrder.ema20 > dataBreakoutNoOrder.ema50) ∧
    (analyzeMarketConditionWithTechnicals dataBreakoutNoOrder).1 = "breakout" := by
  refine ⟨?_, ?_, ?_⟩ <;>
    norm_num [analyzeMarketConditionWithTechnicals, trendingRuleResult, trendingRuleFires,
      dataBreakoutNoOrder, cleanedBase]

/-- When the trending rule does not fire, the trending block of the
classifier produces no early return. -/
theorem trendingRuleResult_none (d : CleanedMarketData) (h : ¬ trendingRuleFires d) :
    trendingRuleResult d = none := by
  unfold trendingRuleFires at h
  push_neg at h
  simp only [trendingRuleResult]
  split_ifs with h1 h2 h3 h4
  · exfalso
    have hc := h h1 h2
    rcases h3 with ⟨hs, hm⟩ | ⟨hs, hm⟩
    · exact absurd hm (not_lt.mpr (hc.1 hs))
    · exact absurd hm (not_lt.mpr (hc.2 hs))
  · exfalso
    have hc := h h1 h2
    rcases h3 with ⟨hs, hm⟩ | ⟨hs, hm⟩
    · exact absurd hm (not_lt.mpr (hc.1 hs))
    · exact absurd hm (not_lt.mpr (hc.2 hs))
  · rfl
  · rfl
  · rfl

/-- C3 (amended): when the trending rule does not fire, the classifier
returns `breakout` exactly when price is above both EMA20 and EMA50 with
`volumeChange > 50` (no ordering between the EMAs is required);
otherwise it falls through to the volatile, consolidate and ranging
rules in that order. -/
theorem analyzeMarketConditionWithTechnicals_fallthrough (d : CleanedMarketData)
    (h : ¬ trendingRuleFires d) :
    ((analyzeMarketConditionWithTechnicals d).1 = "breakout" ↔ breakoutRuleCond d) ∧
    (¬ breakoutRuleCond d → volatileRuleCond d →
      (analyzeMarketConditionWithTechnicals d).1 = "volatile") ∧
    (¬ breakoutRuleCond d → ¬ volatileRuleCond d → consolidateRuleCond d →
      (analyzeMarketConditionWithTechnicals d).1 = "consolidate") ∧
    (¬ breakoutRuleCond d → ¬ volatileRuleCond d → ¬ consolidateRuleCond d →
      (analyzeMarketConditionWithTechnicals d).1 = "ranging") := by
  have hnone := trendingRuleResult_none d h
  unfold breakoutRuleCond volatileRuleCond consolidateRuleCond
  simp only [analyzeMarketConditionWithTechnicals, hnone]
  refine ⟨⟨fun hb => ?_, fun hc => ?_⟩, fun hb hv => ?_, fun hb hv hc => ?_,
    fun hb hv hc => ?_⟩
  · by_contra hc
    rw [if_neg hc] at hb
    split_ifs at hb <;> exact absurd hb (by decide)
  · rw [if_pos hc]
  · rw [if_neg hb, if_pos hv]
  · rw [if_neg hb, if_neg hv, if_pos hc]
  · rw [if_neg hb, if_neg hv, if_neg hc]

/-- C3 witness: the amended theorem at a concrete breakout input where
both EMAs sit below price with a volume surge. -/
theorem analyzeMarketConditionWithTechnicals_fallthrough_witness :
    ¬ trendingRuleFires dataBreakoutNoOrder ∧
    ((analyzeMarketConditionWithTechnicals dataBreakoutNoOrder).1 = "breakout" ↔
      breakoutRuleCond dataBreakoutNoOrder) ∧
    breakoutRuleCond dataBreakoutNoOrder :=
  ⟨by norm_num [trendingRuleFires, dataBreakoutNoOrder, cleanedBase],
   (analyzeMarketConditionWithTechnicals_fallthrough dataBreakoutNoOrder
     (by norm_num [trendingRuleFires, dataBreakoutNoOrder, cleanedBase])).1,
   by norm_num [breakoutRuleCond, dataBreakoutNoOrder, cleanedBase]⟩

/-! ## C2 — bounds of the cleaned record -/

/-- C2 counterexample: a raw 1-hour price change of 200% passes through
`ProcessMarketData` unchanged — no clamping to ±50% happens there. -/
theorem processMarketData_no_clamp_counterexample :
    (processMarketData cfgData0 render0 (some rawBadChange)).map
        (fun c => c.priceChange1h) = some 200 ∧
    ¬ (|(200 : ℚ)| ≤ 50) := by
  constructor
  · simp [processMarketData, rawBadChange]
  · norm_num

/-- `calculateRSI14` stays within any bounds satisfied by the raw RSI7
and the intraday RSI14 series. -/
theorem calculateRSI14_bounds (raw : MarketData)
    (hrsi7 : 0 ≤ raw.currentRSI7 ∧ raw.currentRSI7 ≤ 100)
    (hrsi14 : ∀ s, raw.intradaySeries = some s → ∀ x ∈ s.rsi14Values, 0 ≤ x ∧ x ≤ 100) :
    0 ≤ calculateRSI14 raw ∧ calculateRSI14 raw ≤ 100 := by
  unfold calculateRSI14
  split
  next s hs =>
    split
    next v hl =>
      have hmem : v ∈ s.rsi14Values := by
        rcases List.mem_getLast?_eq_getLast (l := s.rsi14Values) (x := v) hl with ⟨hne, hx⟩
        rw [hx]
        exact List.getLast_mem hne
      exact hrsi14 s hs v hmem
    next hl => exact hrsi7
  next hs => exact hrsi7

/-- C2 (amended): `ProcessMarketData` performs no clamping — it copies
RSI7 and the price changes unchanged, takes RSI14 from the series (or
RSI7) and open interest from the raw record (or 0) — so the claimed
bounds hold exactly when the raw input already satisfies them.  (The
±50%/±100% clamps live in `market.DataCleaner.CleanMarketData`, which
`ProcessMarketData` does not invoke.) -/
theorem processMarketData_bounds (cfg : DataLayerConfig)
    (render : CleanedMarketData → List ℕ) (raw : MarketData)
    (hrsi7 : 0 ≤ raw.currentRSI7 ∧ raw.currentRSI7 ≤ 100)
    (hrsi14 : ∀ s, raw.intradaySeries = some s → ∀ x ∈ s.rsi14Values, 0 ≤ x ∧ x ≤ 100)
    (hoi : ∀ oi, raw.openInterest = some oi → 0 ≤ oi.latest)
    (h1h : |raw.priceChange1h| ≤ 50) (h4h : |raw.priceChange4h| ≤ 100) :
    ∀ c, processMarketData cfg render (some raw) = some c →
      (0 ≤ c.rsi7 ∧ c.rsi7 ≤ 100) ∧ (0 ≤ c.rsi14 ∧ c.rsi14 ≤ 100) ∧
      0 ≤ c.openInterest ∧ |c.priceChange1h| ≤ 50 ∧ |c.priceChange4h| ≤ 100 := by
  intro c hproc
  simp only [processMarketData] at hproc
  cases hproc
  refine ⟨hrsi7, calculateRSI14_bounds raw hrsi7 hrsi14, ?_, h1h, h4h⟩
  show 0 ≤ ((match raw.openInterest with | some oi => oi.latest | none => 0) : ℚ)
  split
  next oi ho => exact hoi oi ho
  next ho => exact le_refl 0

/-- C2 witness: the amended theorem at `rawGood`, whose processed record
is `cleanedGood`. -/
theorem processMarketData_bounds_witness :
    processMarketData cfgData0 render0 (some rawGood) = some cleanedGood ∧
    ((0 ≤ cleanedGood.rsi7 ∧ cleanedGood.rsi7 ≤ 100) ∧
      (0 ≤ cleanedGood.rsi14 ∧ cleanedGood.rsi14 ≤ 100) ∧
      0 ≤ cleanedGood.openInterest ∧ |cleanedGood.priceChange1h| ≤ 50 ∧
      |cleanedGood.priceChange4h| ≤ 100) := by
  have hproc : processMarketData cfgData0 render0 (some rawGood) = some cleanedGood := by
    simp only [processMarketData, rawGood, calculatePriceChange24h, calculateMACDSignal,
      calculateRSI14, assessDataQuality, generateCompressedSummary, render0, cleanedGood,
      cfgData0]
    norm_num
  refine ⟨hproc, processMarketData_bounds cfgData0 render0 rawGood
    (by norm_num [rawGood]) (by simp [rawGood]) (by simp [rawGood])
    (by norm_num [rawGood]) (by norm_num [rawGood]) cleanedGood hproc⟩

/-! ## C5 — confidence floor of non-wait decisions -/

/-- A confidence bump never decreases the score. -/
theorem le_confBump (c : ℚ) (b1 b2 : Bool) : c ≤ confBump c b1 b2 := by
  unfold confBump
  split_ifs <;> linarith

/-- The rule-based confidence score never drops below its 0.75 base. -/
theorem calculateConfidence_ge (d : CleanedMarketData) (b : Bool) :
    3/4 ≤ calculateConfidence d b := by
  simp only [calculateConfidence]
  have h1 := le_confBump (3/4 : ℚ) (b && decide (d.rsi14 < 40)) (!b && decide (d.rsi14 > 60))
  have h2 := le_confBump (confBump (3/4) (b && decide (d.rsi14 < 40))
      (!b && decide (d.rsi14 > 60)))
    (b && decide (d.macd > d.macdSignal)) (!b && decide (d.macd < d.macdSignal))
  have h3 := le_confBump (confBump (confBump (3/4) (b && decide (d.rsi14 < 40))
      (!b && decide (d.rsi14 > 60)))
    (b && decide (d.macd > d.macdSignal)) (!b && decide (d.macd < d.macdSignal)))
    (b && decide (d.currentPrice > d.ema20)) (!b && decide (d.currentPrice < d.ema20))
  split_ifs <;> linarith

/-- Every decision `callAIForDecision` returns carries confidence at
least 0.7 (parsed payloads are clamped, text fallbacks are fixed at
0.75). -/
theorem callAIForDecision_conf_ge (o : OracleCall (String × ℚ × String))
    (t : String × ℚ × String) (h : callAIForDecision o = some t) : 7/10 ≤ t.2.1 := by
  cases o with
  | failure => simp [callAIForDecision] at h
  | malformed text =>
    simp only [callAIForDecision] at h
    cases h
    norm_num [parseDecisionFromText]
  | parsed val =>
    obtain ⟨dirStr, conf, reasoning⟩ := val
    simp only [callAIForDecision] at h
    cases h
    dsimp only
    split_ifs <;> linarith

/-- A non-wait rule-based decision carries confidence at least 0.7. -/
theorem makeRuleBasedDecision_conf_ge (opp : String) (d : CleanedMarketData)
    (h : (makeRuleBasedDecision opp d).1 ≠ "wait") :
    7/10 ≤ (makeRuleBasedDecision opp d).2 := by
  revert h
  unfold makeRuleBasedDecision
  split_ifs with h1 h2 h3 h4 h5
  · intro _
    exact le_trans (by norm_num) (calculateConfidence_ge d true)
  · intro _
    exact le_trans (by norm_num) (calculateConfidence_ge d false)
  · intro _
    norm_num
  · intro _
    norm_num
  · intro hw
    exact absurd rfl hw
  · intro hw
    exact absurd rfl hw

/-- C5: whenever `MakeDecision` returns a direction other than `wait`,
its confidence is at least 0.7 and at least the configured
`minConfidence`, for every configuration, market input and oracle
behaviour. -/
theorem makeDecision_confidence (cfg : AILayerConfig) (env : DecisionEnv)
    (d : CleanedMarketData)
    (h : (makeDecision cfg env d).direction ≠ "wait") :
    7/10 ≤ (makeDecision cfg env d).confidence ∧
    cfg.minConfidence ≤ (makeDecision cfg env d).confidence := by
  have gate : ∀ (dir : String) (conf : ℚ),
      (if conf < cfg.minConfidence then "wait" else dir) ≠ "wait" →
      ¬ (conf < cfg.minConfidence) ∧ dir ≠ "wait" := by
    intro dir conf hg
    by_cases hc : conf < cfg.minConfidence
    · rw [if_pos hc] at hg
      exact absurd rfl hg
    · rw [if_neg hc] at hg
      exact ⟨hc, hg⟩
  obtain ⟨rl, co, oo, dor⟩ := env
  cases rl with
  | false =>
    exact absurd rfl h
  | true =>
    simp only [makeDecision] at h ⊢
    rw [if_neg (show ¬ (true = false) by decide)] at h ⊢
    cases dor with
    | failure =>
      simp only [callAIForDecision] at h ⊢
      obtain ⟨hnl, hdir⟩ := gate _ _ h
      exact ⟨makeRuleBasedDecision_conf_ge _ d hdir, le_of_not_lt hnl⟩
    | malformed text =>
      simp only [callAIForDecision, parseDecisionFromText] at h ⊢
      obtain ⟨hnl, _⟩ := gate _ _ h
      exact ⟨by norm_num, le_of_not_lt hnl⟩
    | parsed val =>
      obtain ⟨dirStr, conf, reasoning⟩ := val
      simp only [callAIForDecision] at h ⊢
      obtain ⟨hnl, _⟩ := gate _ _ h
      refine ⟨?_, le_of_not_lt hnl⟩
      dsimp only
      split_ifs <;> linarith

/-- C5 witness: the theorem at a parsed long decision of confidence 0.9
against the 0.75 threshold. -/
theorem makeDecision_confidence_witness :
    (makeDecision cfgAI0 envLongDecision cleanedBase).direction ≠ "wait" ∧
    7/10 ≤ (makeDecision cfgAI0 envLongDecision cleanedBase).confidence ∧
    cfgAI0.minConfidence ≤ (makeDecision cfgAI0 envLongDecision cleanedBase).confidence := by
  have hdir : (makeDecision cfgAI0 envLongDecision cleanedBase).direction ≠ "wait" := by
    norm_num [makeDecision, envLongDecision, callAIForDecision, cfgAI0]
    decide
  exact ⟨hdir, makeDecision_confidence cfgAI0 envLongDecision cleanedBase hdir⟩

/-! ## C1 — no data-quality gate in the trading cycle -/

/-- C1 counterexample: a raw input whose cleaned record is invalid
(quality 0.1 against threshold 0.8) still drives the cycle into the
AI-decision stage, and `rejectedByRisk` stays untouched — there is no
"rejected: data quality" termination after cleaning. -/
theorem executeTradingCycle_quality_counterexample :
    (processMarketData cfgData0 render0 (some rawLowQuality)).map (fun c => c.isValid)
      = some false ∧
    Stage.aiDecision ∈
      (executeTradingCycle cfgL0 envWaitCycle rawLowQuality newOrchestrator).2.stages ∧
    (executeTradingCycle cfgL0 envWaitCycle rawLowQuality newOrchestrator).1.rejectedByRisk
      = newOrchestrator.rejectedByRisk := by
  refine ⟨?_, ?_, ?_⟩
  · simp only [processMarketData, rawLowQuality, assessDataQuality, cfgData0, Option.map]
    norm_num
  · simp [executeTradingCycle, processMarketData, makeDecision, envWaitCycle, cfgL0,
      cfgAI0, cfgData0, rawLowQuality, render0, newOrchestrator, updateAccountInfo]
  · simp [executeTradingCycle, processMarketData, makeDecision, envWaitCycle, cfgL0,
      cfgAI0, cfgData0, rawLowQuality, render0, newOrchestrator, updateAccountInfo]

/-- C1 (amended): `ExecuteTradingCycle` has no data-quality gate — for
every input (valid or not), as soon as the balance fetch succeeds the
cycle enters the AI-decision stage; low-quality data is only caught
later by the secondary risk validation. -/
theorem executeTradingCycle_no_quality_gate (cfg : LayerConfig) (env : CycleEnv)
    (raw : MarketData) (s : OrchestratorState) (hb : env.balance.isSome = true) :
    Stage.aiDecision ∈ (executeTradingCycle cfg env raw s).2.stages := by
  obtain ⟨render, bal, denv, val, snd⟩ := env
  cases bal with
  | none => simp at hb
  | some triple =>
    obtain ⟨t, a, u⟩ := triple
    simp only [executeTradingCycle, processMarketData]
    repeat' split
    all_goals simp

/-- C1 witness: the amended theorem at the concrete low-quality cycle. -/
theorem executeTradingCycle_no_quality_gate_witness :
    envWaitCycle.balance.isSome = true ∧
    Stage.aiDecision ∈
      (executeTradingCycle cfgL0 envWaitCycle rawLowQuality newOrchestrator).2.stages :=
  ⟨rfl, executeTradingCycle_no_quality_gate cfgL0 envWaitCycle rawLowQuality
    newOrchestrator rfl⟩

/-! ## C6 — counter inequality across arbitrary operation sequences -/

/-- One trading cycle bumps `totalExecutions` by exactly one and the
three outcome counters by at most one in total. -/
theorem executeTradingCycle_counters (cfg : LayerConfig) (env : CycleEnv) (raw : MarketData)
    (s : OrchestratorState) :
    (executeTradingCycle cfg env raw s).1.totalExecutions = s.totalExecutions + 1 ∧
    (executeTradingCycle cfg env raw s).1.successfulTrades +
      (executeTradingCycle cfg env raw s).1.failedTrades +
      (executeTradingCycle cfg env raw s).1.rejectedByRisk ≤
      s.successfulTrades + s.failedTrades + s.rejectedByRisk + 1 := by
  simp only [executeTradingCycle]
  repeat' split
  all_goals dsimp only
  all_goals omega

/-- C6: starting from a fresh orchestrator, after any sequence of
trading cycles (with arbitrary stage outcomes) and mutator calls,
`successfulTrades + failedTrades + rejectedByRisk ≤ totalExecutions`. -/
theorem orchestrator_counters_invariant (cfg : LayerConfig)
    (events : List OrchestratorEvent) :
    (runOrchestrator cfg events).successfulTrades +
      (runOrchestrator cfg events).failedTrades +
      (runOrchestrator cfg events).rejectedByRisk ≤
      (runOrchestrator cfg events).totalExecutions := by
  suffices h : ∀ (l : List OrchestratorEvent) (s : OrchestratorState),
      s.successfulTrades + s.failedTrades + s.rejectedByRisk ≤ s.totalExecutions →
      (l.foldl (orchestratorStep cfg) s).successfulTrades +
        (l.foldl (orchestratorStep cfg) s).failedTrades +
        (l.foldl (orchestratorStep cfg) s).rejectedByRisk ≤
        (l.foldl (orchestratorStep cfg) s).totalExecutions by
    exact h events newOrchestrator (by simp [newOrchestrator])
  intro l
  induction l with
  | nil => exact fun s hs => hs
  | cons e rest ih =>
    intro s hs
    refine ih (orchestratorStep cfg s e) ?_
    cases e with
    | cycle env raw =>
      obtain ⟨h1, h2⟩ := executeTradingCycle_counters cfg env raw s
      dsimp only [orchestratorStep]
      omega
    | updateAccount t a u => exact hs
    | updateDaily pnl => exact hs
    | recordTrade isWin => exact hs
    | resetBreaker => exact hs

end Nofx
